import Mathlib

/-
Shallow embedding of pipe9x (src/pipe9x.c, src/pipe9x.h): anonymous pipes
with overlapped-I/O semantics on Windows 9x.  Each endpoint is a
struct PipeData; the OS and the allocator are modelled as explicit oracle
records whose fields hold the responses the code would get from the
corresponding Win32 / libc calls.  Resource allocation and release are
tracked in a ledger of live objects, and the teardown path additionally
produces a trace of its release/wait steps so that ordering properties can
be stated.
-/

namespace Pipe9x

/- Win32 error codes used by the library (values from winerror.h). -/

def ERROR_SUCCESS : Nat := 0

def ERROR_OUTOFMEMORY : Nat := 14

def ERROR_INVALID_PARAMETER : Nat := 87

def ERROR_BROKEN_PIPE : Nat := 109

def ERROR_CALL_NOT_IMPLEMENTED : Nat := 120

def ERROR_IO_INCOMPLETE : Nat := 996

def ERROR_IO_PENDING : Nat := 997

/-- A Win32 HANDLE as stored in struct PipeData: INVALID_HANDLE_VALUE, NULL,
or an open OS handle identified by a number. -/
inductive Handle where
  | invalid : Handle
  | hnull : Handle
  | valid : Nat → Handle
deriving DecidableEq

/-- A manual-reset event object (CreateEvent with bManualReset = TRUE).  The
model keeps the event object inline in the endpoint that owns it; none in the
owning field models a NULL event handle. -/
structure Event where
  signalled : Bool
deriving DecidableEq

/-- struct PipeData from pipe9x.c:39, the per-endpoint state shared by the
read and write directions.  rw_buf is the malloc'd transfer buffer (none
models NULL, some holds the byte contents), hEvent is overlapped.hEvent. -/
structure PipeData where
  pipe : Handle
  rw_buf : Option (List Nat)
  rw_buf_size : Nat
  hEvent : Option Event
  pending : Bool
  use_thread_fallback : Bool
  io_thread : Option Unit
  bytes_transferred : Nat
  io_result : Nat
deriving DecidableEq

/-- Counts of live allocations and OS handles, used to check what
pipe9x_create and the close functions allocate and release. -/
structure Ledger where
  bufs : Nat
  objs : Nat
  events : Nat
  pipes : Nat
  threads : Nat
deriving DecidableEq

/-- Observable steps of the teardown path, listed in program order. -/
inductive TraceEv where
  | closePipeHandle : TraceEv
  | waitForOp : TraceEv
  | closeThreadHandle : TraceEv
  | closeEventHandle : TraceEv
  | freeBuffer : TraceEv
  | freeObject : TraceEv
deriving DecidableEq

/-- _pipe9x_cleanup from pipe9x.c:259.  Closes the pipe handle (setting the
field to NULL), then, if an operation is pending, waits for it to finish
(joining and closing the worker thread in the fallback backend, waiting on
the completion event otherwise), then closes the event handle.  Note that
the malloc'd rw_buf is not freed anywhere in this function. -/
def _pipe9x_cleanup (pd : PipeData) (L : Ledger) : PipeData × Ledger × List TraceEv :=
  let step1 :=
    if pd.pipe ≠ Handle.invalid then
      ({ pd with pipe := Handle.hnull }, { L with pipes := L.pipes - 1 },
        [TraceEv.closePipeHandle])
    else (pd, L, ([] : List TraceEv))
  let pd1 := step1.1
  let L1 := step1.2.1
  let t1 := step1.2.2
  let step2 :=
    if pd1.pending then
      if pd1.use_thread_fallback then
        ({ pd1 with io_thread := none }, { L1 with threads := L1.threads - 1 },
          [TraceEv.waitForOp, TraceEv.closeThreadHandle])
      else (pd1, L1, [TraceEv.waitForOp])
    else (pd1, L1, ([] : List TraceEv))
  let pd2 := step2.1
  let L2 := step2.2.1
  let t2 := step2.2.2
  let step3 :=
    if pd2.hEvent ≠ none then
      ({ pd2 with hEvent := none }, { L2 with events := L2.events - 1 },
        [TraceEv.closeEventHandle])
    else (pd2, L2, ([] : List TraceEv))
  (step3.1, step3.2.1, t1 ++ t2 ++ step3.2.2)

/-- pipe9x_read_close from pipe9x.c:291: NULL is a no-op, otherwise run the
shared cleanup and free the endpoint object. -/
def pipe9x_read_close (prh : Option PipeData) (L : Ledger) : Ledger × List TraceEv :=
  match prh with
  | none => (L, [])
  | some pd =>
    let c := _pipe9x_cleanup pd L
    ({ c.2.1 with objs := c.2.1.objs - 1 }, c.2.2 ++ [TraceEv.freeObject])

/-- pipe9x_write_close from pipe9x.c:464: same shape as the read close,
delegating to the shared cleanup. -/
def pipe9x_write_close (pwh : Option PipeData) (L : Ledger) : Ledger × List TraceEv :=
  match pwh with
  | none => (L, [])
  | some pd =>
    let c := _pipe9x_cleanup pd L
    ({ c.2.1 with objs := c.2.1.objs - 1 }, c.2.2 ++ [TraceEv.freeObject])

/-- Outcome of the overlapped ReadFile call in pipe9x_read_initiate: either it
returned TRUE (synchronous completion, byte count stored through the output
pointer), or it returned FALSE and GetLastError() gave the carried code
(ERROR_IO_PENDING meaning the operation was queued). -/
inductive NativeReadOutcome where
  | syncOk : Nat → NativeReadOutcome
  | lastError : Nat → NativeReadOutcome
deriving DecidableEq

/-- OS responses consumed by one call of an initiate function. -/
structure InitiateOracle where
  createThreadOk : Bool
  createThreadErr : Nat
  native : NativeReadOutcome
deriving DecidableEq

/-- pipe9x_read_initiate from pipe9x.c:324.  In the thread-fallback backend it
resets the completion event and spawns the worker thread; in the native
backend it issues an overlapped ReadFile.  Starting an overlapped operation
resets the manual-reset event; a synchronously completed one leaves it set;
an immediately failed ReadFile (error other than ERROR_IO_PENDING) starts no
operation and leaves the event alone. -/
def pipe9x_read_initiate (prh : PipeData) (osc : InitiateOracle) : Nat × PipeData :=
  if prh.pending then
    (ERROR_IO_PENDING, prh)
  else if prh.use_thread_fallback then
    let prh1 := { prh with hEvent := prh.hEvent.map (fun _ => Event.mk false) }
    if osc.createThreadOk then
      (ERROR_IO_PENDING, { prh1 with io_thread := some (), pending := true })
    else
      (osc.createThreadErr, { prh1 with io_thread := none })
  else
    match osc.native with
    | NativeReadOutcome.syncOk b =>
      (ERROR_IO_PENDING,
        { prh with bytes_transferred := b, pending := true,
                   hEvent := prh.hEvent.map (fun _ => Event.mk true) })
    | NativeReadOutcome.lastError e =>
      if e = ERROR_IO_PENDING then
        (ERROR_IO_PENDING,
          { prh with pending := true,
                     hEvent := prh.hEvent.map (fun _ => Event.mk false) })
      else
        (e, prh)

/-- Result of WaitForSingleObject as used by the result functions; any other
return value makes the code abort the process, which is outside the model. -/
inductive WaitOutcome where
  | object0 : WaitOutcome
  | timedOut : WaitOutcome
deriving DecidableEq

/-- Outcome of GetOverlappedResult in a result function: success with the
transferred byte count, or failure with a GetLastError() code
(ERROR_IO_INCOMPLETE when the operation is still running). -/
inductive OvlOutcome where
  | ok : Nat → OvlOutcome
  | err : Nat → OvlOutcome
deriving DecidableEq

/-- OS responses consumed by one call of a result function.  In the thread
fallback, workerResult and workerBytes are what the worker thread stored in
io_result and bytes_transferred before setting the completion event; a wait
that observes WAIT_OBJECT_0 happens only after those stores. -/
structure ResultOracle where
  waitResult : WaitOutcome
  workerResult : Nat
  workerBytes : Nat
  overlapped : OvlOutcome
deriving DecidableEq

/-- Outputs of pipe9x_read_result: the returned error code and, when the code
wrote through them, the published (*data_out, *data_size_out) pair. -/
structure ReadResultOut where
  ret : Nat
  dataOut : Option (List Nat × Nat)
deriving DecidableEq

/-- pipe9x_read_result from pipe9x.c:381.  With nothing pending it fails with
ERROR_INVALID_PARAMETER.  Thread fallback: wait on the completion event
(INFINITE when wait is true, zero timeout otherwise); on WAIT_OBJECT_0 join
and close the worker, clear pending and return the stored outcome, publishing
the buffer on success; on WAIT_TIMEOUT return ERROR_IO_INCOMPLETE.  Native:
query GetOverlappedResult; on success clear pending and publish; on failure
clear pending unless the error is ERROR_IO_INCOMPLETE. -/
def pipe9x_read_result (prh : PipeData) (wait : Bool) (osc : ResultOracle) :
    ReadResultOut × PipeData :=
  if !prh.pending then
    (ReadResultOut.mk ERROR_INVALID_PARAMETER none, prh)
  else if prh.use_thread_fallback then
    match osc.waitResult with
    | WaitOutcome.object0 =>
      let prh1 := { prh with
        io_result := osc.workerResult,
        bytes_transferred := osc.workerBytes,
        hEvent := prh.hEvent.map (fun _ => Event.mk true),
        pending := false,
        io_thread := none }
      if prh1.io_result = ERROR_SUCCESS then
        (ReadResultOut.mk prh1.io_result
          (some (prh1.rw_buf.getD [], prh1.bytes_transferred)), prh1)
      else
        (ReadResultOut.mk prh1.io_result none, prh1)
    | WaitOutcome.timedOut =>
      (ReadResultOut.mk ERROR_IO_INCOMPLETE none, prh)
  else
    match osc.overlapped with
    | OvlOutcome.ok b =>
      let prh1 := { prh with pending := false,
                             hEvent := prh.hEvent.map (fun _ => Event.mk true) }
      (ReadResultOut.mk ERROR_SUCCESS (some (prh1.rw_buf.getD [], b)), prh1)
    | OvlOutcome.err e =>
      if e ≠ ERROR_IO_INCOMPLETE then
        (ReadResultOut.mk e none, { prh with pending := false })
      else
        (ReadResultOut.mk e none, prh)

/-- pipe9x_read_pending from pipe9x.c:446: pure accessor. -/
def pipe9x_read_pending (prh : PipeData) : Bool := prh.pending

/-- pipe9x_read_event from pipe9x.c:458: pure accessor for the completion
event. -/
def pipe9x_read_event (prh : PipeData) : Option Event := prh.hEvent

/-- pipe9x_write_pending from pipe9x.c:475: pure accessor. -/
def pipe9x_write_pending (pwh : PipeData) : Bool := pwh.pending

/-- pipe9x_write_event from pipe9x.c:487: pure accessor for the completion
event. -/
def pipe9x_write_event (pwh : PipeData) : Option Event := pwh.hEvent

/-- Terminating outcome of the CreateNamedPipe retry loop in pipe9x_create
(pipe9x.c:141): an ERROR_FILE_EXISTS collision retries with a new random
name, so the loop is left either with a created pipe, with
ERROR_CALL_NOT_IMPLEMENTED, or with some other error. -/
inductive PipeLoopOutcome where
  | created : Nat → PipeLoopOutcome
  | notImplemented : PipeLoopOutcome
  | otherError : Nat → PipeLoopOutcome
deriving DecidableEq

/-- Allocator and OS responses consumed by one pipe9x_create call. -/
structure CreateOracle where
  prhAllocOk : Bool
  pwhAllocOk : Bool
  readBufOk : Bool
  writeBufOk : Bool
  readEventOk : Bool
  readEventErr : Nat
  writeEventOk : Bool
  writeEventErr : Nat
  namedPipe : PipeLoopOutcome
  createPipeOk : Bool
  createPipeErr : Nat
  readPipeId : Nat
  writePipeId : Nat
  connectOk : Bool
  connectErr : Nat
  createFileOk : Bool
  createFileErr : Nat
  golOk : Bool
  golErr : Nat
deriving DecidableEq

/-- Result of pipe9x_create: the returned error code, the two output handles
(*prh_out, *pwh_out; none models NULL) and the final resource ledger. -/
structure CreateOut where
  ret : Nat
  prh_out : Option PipeData
  pwh_out : Option PipeData
  ledger : Ledger
deriving DecidableEq

/-- pipe9x_create from pipe9x.c:63.  Faithful to the source, including
pipe9x.c:94-95 where the write endpoint's rw_buf is allocated with read_size
and its rw_buf_size is set to read_size, and pipe9x.c:111/122 where both
completion events are created with bInitialState FALSE.  On the native
handshake path, GetOverlappedResult(..., TRUE) returning success means the
overlapped ConnectNamedPipe completed, so the read endpoint's manual-reset
event is signalled at that point; nothing on any path sets the write
endpoint's event. -/
def pipe9x_create (read_size write_size : Nat) (osc : CreateOracle) (L : Ledger) :
    CreateOut :=
  if !(osc.prhAllocOk && osc.pwhAllocOk) then
    -- free(pwh); free(prh): whichever malloc succeeded is freed right here,
    -- so the object count is back to where it started
    CreateOut.mk ERROR_OUTOFMEMORY none none L
  else
  let L1 := { L with objs := L.objs + 2 }
  let prh0 : PipeData := {
    pipe := Handle.invalid
    rw_buf := if osc.readBufOk then some (List.replicate read_size 0) else none
    rw_buf_size := read_size
    hEvent := none
    pending := false
    use_thread_fallback := false
    io_thread := none
    bytes_transferred := 0
    io_result := 0 }
  -- pipe9x.c:94-95: malloc(read_size) and rw_buf_size = read_size here too
  let pwh0 : PipeData := {
    pipe := Handle.invalid
    rw_buf := if osc.writeBufOk then some (List.replicate read_size 0) else none
    rw_buf_size := read_size
    hEvent := none
    pending := false
    use_thread_fallback := false
    io_thread := none
    bytes_transferred := 0
    io_result := 0 }
  let L2 := { L1 with bufs := L1.bufs +
    (if osc.readBufOk then 1 else 0) + (if osc.writeBufOk then 1 else 0) }
  if prh0.rw_buf = none ∨ pwh0.rw_buf = none then
    let a := pipe9x_write_close (some pwh0) L2
    let b := pipe9x_read_close (some prh0) a.1
    CreateOut.mk ERROR_OUTOFMEMORY none none b.1
  else
  if !osc.readEventOk then
    let a := pipe9x_write_close (some pwh0) L2
    let b := pipe9x_read_close (some prh0) a.1
    CreateOut.mk osc.readEventErr none none b.1
  else
  let prh1 := { prh0 with hEvent := some (Event.mk false) }
  let L3 := { L2 with events := L2.events + 1 }
  if !osc.writeEventOk then
    let a := pipe9x_write_close (some pwh0) L3
    let b := pipe9x_read_close (some prh1) a.1
    CreateOut.mk osc.writeEventErr none none b.1
  else
  let pwh1 := { pwh0 with hEvent := some (Event.mk false) }
  let L4 := { L3 with events := L3.events + 1 }
  match osc.namedPipe with
  | PipeLoopOutcome.otherError e =>
    let a := pipe9x_write_close (some pwh1) L4
    let b := pipe9x_read_close (some prh1) a.1
    CreateOut.mk e none none b.1
  | PipeLoopOutcome.notImplemented =>
    if osc.createPipeOk then
      let prh2 := { prh1 with pipe := Handle.valid osc.readPipeId,
                              use_thread_fallback := true }
      let pwh2 := { pwh1 with pipe := Handle.valid osc.writePipeId,
                              use_thread_fallback := true }
      CreateOut.mk ERROR_SUCCESS (some prh2) (some pwh2)
        { L4 with pipes := L4.pipes + 2 }
    else
      let a := pipe9x_write_close (some pwh1) L4
      let b := pipe9x_read_close (some prh1) a.1
      CreateOut.mk osc.createPipeErr none none b.1
  | PipeLoopOutcome.created id =>
    let prh2 := { prh1 with pipe := Handle.valid id }
    let L5 := { L4 with pipes := L4.pipes + 1 }
    if !osc.connectOk then
      let a := pipe9x_write_close (some pwh1) L5
      let b := pipe9x_read_close (some prh2) a.1
      CreateOut.mk osc.connectErr none none b.1
    else
    if !osc.createFileOk then
      let a := pipe9x_write_close (some pwh1) L5
      let b := pipe9x_read_close (some prh2) a.1
      CreateOut.mk osc.createFileErr none none b.1
    else
    let pwh2 := { pwh1 with pipe := Handle.valid osc.writePipeId }
    let L6 := { L5 with pipes := L5.pipes + 1 }
    if !osc.golOk then
      let a := pipe9x_write_close (some pwh2) L6
      let b := pipe9x_read_close (some prh2) a.1
      CreateOut.mk osc.golErr none none b.1
    else
    let prh3 := { prh2 with hEvent := some (Event.mk true) }
    CreateOut.mk ERROR_SUCCESS (some prh3) (some pwh2) L6

/-- Modelled from the spec: pipe9x_write_initiate is declared in src/pipe9x.h
(line 182) and exercised by src/pipe9x-test.c, but its implementation is not
among the source files.  Following spec sections 4.2/4.3: it fails with the
incomplete code if an operation is already pending; otherwise it first copies
the caller's data into the endpoint's internal buffer, bounded by the buffer
capacity, and then starts the native or thread-emulated write, symmetric to
pipe9x_read_initiate. -/
def pipe9x_write_initiate (pwh : PipeData) (data : List Nat) (osc : InitiateOracle) :
    Nat × PipeData :=
  if pwh.pending then
    (ERROR_IO_INCOMPLETE, pwh)
  else
    let ncopy := min data.length pwh.rw_buf_size
    let pwh0 := { pwh with
      rw_buf := some (data.take ncopy ++ (pwh.rw_buf.getD []).drop ncopy) }
    if pwh0.use_thread_fallback then
      let pwh1 := { pwh0 with hEvent := pwh0.hEvent.map (fun _ => Event.mk false) }
      if osc.createThreadOk then
        (ERROR_IO_PENDING, { pwh1 with io_thread := some (), pending := true })
      else
        (osc.createThreadErr, { pwh1 with io_thread := none })
    else
      match osc.native with
      | NativeReadOutcome.syncOk b =>
        (ERROR_IO_PENDING,
          { pwh0 with bytes_transferred := b, pending := true,
                      hEvent := pwh0.hEvent.map (fun _ => Event.mk true) })
      | NativeReadOutcome.lastError e =>
        if e = ERROR_IO_PENDING then
          (ERROR_IO_PENDING,
            { pwh0 with pending := true,
                        hEvent := pwh0.hEvent.map (fun _ => Event.mk false) })
        else
          (e, pwh0)

/-- Outputs of pipe9x_write_result: the returned error code and, when the
code wrote through it, the published *data_written_out count. -/
structure WriteResultOut where
  ret : Nat
  dataWrittenOut : Option Nat
deriving DecidableEq

/-- Modelled from the spec: pipe9x_write_result is declared in src/pipe9x.h
(line 203) but its implementation is not among the source files.  Following
spec section 4.3 it is symmetric to pipe9x_read_result, with the success
payload being the number of bytes actually written. -/
def pipe9x_write_result (pwh : PipeData) (wait : Bool) (osc : ResultOracle) :
    WriteResultOut × PipeData :=
  if !pwh.pending then
    (WriteResultOut.mk ERROR_INVALID_PARAMETER none, pwh)
  else if pwh.use_thread_fallback then
    match osc.waitResult with
    | WaitOutcome.object0 =>
      let pwh1 := { pwh with
        io_result := osc.workerResult,
        bytes_transferred := osc.workerBytes,
        hEvent := pwh.hEvent.map (fun _ => Event.mk true),
        pending := false,
        io_thread := none }
      if pwh1.io_result = ERROR_SUCCESS then
        (WriteResultOut.mk pwh1.io_result (some pwh1.bytes_transferred), pwh1)
      else
        (WriteResultOut.mk pwh1.io_result none, pwh1)
    | WaitOutcome.timedOut =>
      (WriteResultOut.mk ERROR_IO_INCOMPLETE none, pwh)
  else
    match osc.overlapped with
    | OvlOutcome.ok b =>
      let pwh1 := { pwh with pending := false,
                             hEvent := pwh.hEvent.map (fun _ => Event.mk true) }
      (WriteResultOut.mk ERROR_SUCCESS (some b), pwh1)
    | OvlOutcome.err e =>
      if e ≠ ERROR_IO_INCOMPLETE then
        (WriteResultOut.mk e none, { pwh with pending := false })
      else
        (WriteResultOut.mk e none, pwh)

/- Concrete fixtures used by the claim theorems, their witnesses and the
counterexamples. -/

/-- An empty resource ledger. -/
def ledger0 : Ledger := Ledger.mk 0 0 0 0 0

/-- A ledger accounting for one endpoint: its buffer, object, event and pipe
handle. -/
def ledger1 : Ledger := Ledger.mk 1 1 1 1 0

/-- A connected native-backend endpoint with no operation pending. -/
def idleNative : PipeData :=
  { pipe := Handle.valid 5, rw_buf := some (List.replicate 4 0), rw_buf_size := 4,
    hEvent := some (Event.mk true), pending := false, use_thread_fallback := false,
    io_thread := none, bytes_transferred := 0, io_result := 0 }

/-- A native-backend endpoint with an overlapped operation pending. -/
def pendingNative : PipeData :=
  { idleNative with pending := true, hEvent := some (Event.mk false) }

/-- A thread-fallback endpoint with no operation pending. -/
def idleFallback : PipeData :=
  { idleNative with use_thread_fallback := true }

/-- A thread-fallback endpoint whose worker thread is still running. -/
def pendingFallback : PipeData :=
  { idleFallback with pending := true, io_thread := some (),
                      hEvent := some (Event.mk false) }

/-- Oracle for a pipe9x_create call on which every allocator and OS call
succeeds and the named pipe is created (the native path). -/
def happyCreateOracle : CreateOracle :=
  { prhAllocOk := true, pwhAllocOk := true, readBufOk := true, writeBufOk := true,
    readEventOk := true, readEventErr := 0, writeEventOk := true, writeEventErr := 0,
    namedPipe := PipeLoopOutcome.created 7, createPipeOk := true, createPipeErr := 0,
    readPipeId := 7, writePipeId := 9, connectOk := true, connectErr := 0,
    createFileOk := true, createFileErr := 0, golOk := true, golErr := 0 }

/-- Oracle for a pipe9x_create call on which CreateNamedPipe reports
ERROR_CALL_NOT_IMPLEMENTED and the anonymous CreatePipe fallback succeeds. -/
def fallbackCreateOracle : CreateOracle :=
  { happyCreateOracle with namedPipe := PipeLoopOutcome.notImplemented }

/-- Oracle for a pipe9x_create call on which both buffer allocations succeed
and then the first CreateEvent fails with 1450 (ERROR_NO_SYSTEM_RESOURCES). -/
def eventFailCreateOracle : CreateOracle :=
  { happyCreateOracle with readEventOk := false, readEventErr := 1450 }

/-- Initiate oracle on which nothing the initiate call could ask of the OS
fails: thread creation succeeds and the overlapped read is queued. -/
def noopInitOracle : InitiateOracle :=
  InitiateOracle.mk true 0 (NativeReadOutcome.lastError ERROR_IO_PENDING)

/-- Initiate oracle on which CreateThread fails with 8
(ERROR_NOT_ENOUGH_MEMORY) and a native read would fail likewise. -/
def threadFailInitOracle : InitiateOracle :=
  InitiateOracle.mk false 8 (NativeReadOutcome.lastError 8)

/-- Result oracle for a still-running operation: the zero-timeout wait times
out and GetOverlappedResult reports ERROR_IO_INCOMPLETE. -/
def incompleteResultOracle : ResultOracle :=
  ResultOracle.mk WaitOutcome.timedOut 0 0 (OvlOutcome.err ERROR_IO_INCOMPLETE)

/-- Result oracle for a completed operation that transferred 4 bytes in
either backend. -/
def successResultOracle : ResultOracle :=
  ResultOracle.mk WaitOutcome.object0 ERROR_SUCCESS 4 (OvlOutcome.ok 4)

/-- Claim C1: calling pipe9x_read_initiate while pending is true does leave
the endpoint state unchanged and starts no second operation, in either
backend, but it returns ERROR_IO_PENDING (997), not the claimed
ERROR_IO_INCOMPLETE (996): pipe9x.c:328-331 contradicts the documented
contract at pipe9x.h:89-91 and the test expectation at pipe9x-test.c:107. -/
theorem c1_initiate_while_pending_returns_pending_not_incomplete :
    pipe9x_read_initiate pendingNative noopInitOracle = (ERROR_IO_PENDING, pendingNative) ∧
    pipe9x_read_initiate pendingFallback noopInitOracle = (ERROR_IO_PENDING, pendingFallback) ∧
    ERROR_IO_PENDING ≠ ERROR_IO_INCOMPLETE := by decide

/-- Claim C3: on the successful native path of pipe9x_create both endpoints
have pending false and the read endpoint's event ends up signalled by the
connect handshake, but the write endpoint's completion event is created with
bInitialState FALSE (pipe9x.c:122) and never signalled on any success path,
contradicting the test expectation at pipe9x-test.c:84-85; on the thread
fallback path even the read endpoint's event stays unsignalled. -/
theorem c3_write_event_not_signalled_after_create :
    (pipe9x_create 4 4 happyCreateOracle ledger0).ret = ERROR_SUCCESS ∧
    ((pipe9x_create 4 4 happyCreateOracle ledger0).prh_out.map
      (fun p => pipe9x_read_pending p)) = some false ∧
    ((pipe9x_create 4 4 happyCreateOracle ledger0).pwh_out.map
      (fun p => pipe9x_write_pending p)) = some false ∧
    ((pipe9x_create 4 4 happyCreateOracle ledger0).prh_out.map
      (fun p => pipe9x_read_event p)) = some (some (Event.mk true)) ∧
    ((pipe9x_create 4 4 happyCreateOracle ledger0).pwh_out.map
      (fun p => pipe9x_write_event p)) = some (some (Event.mk false)) ∧
    (pipe9x_create 4 4 fallbackCreateOracle ledger0).ret = ERROR_SUCCESS ∧
    ((pipe9x_create 4 4 fallbackCreateOracle ledger0).prh_out.map
      (fun p => pipe9x_read_event p)) = some (some (Event.mk false)) := by decide

/-- Claim C4: calling pipe9x_create with read_size 1 and write_size 2 gives
the write endpoint a transfer buffer of capacity 1, not 2: pipe9x.c:94-95
allocates the write endpoint's rw_buf with read_size and records read_size as
its size, contradicting pipe9x.h:46 which documents write_size as the size of
the pipe write buffer.  The read endpoint's capacity is read_size as
claimed. -/
theorem c4_write_buffer_allocated_with_read_size :
    (pipe9x_create 1 2 happyCreateOracle ledger0).ret = ERROR_SUCCESS ∧
    ((pipe9x_create 1 2 happyCreateOracle ledger0).prh_out.map
      (fun p => p.rw_buf_size)) = some 1 ∧
    ((pipe9x_create 1 2 happyCreateOracle ledger0).pwh_out.map
      (fun p => p.rw_buf_size)) = some 1 ∧
    ((pipe9x_create 1 2 happyCreateOracle ledger0).pwh_out.map
      (fun p => (p.rw_buf.getD []).length)) = some 1 ∧
    (1 : Nat) ≠ 2 := by decide

/-- Claim C5: when CreateEvent fails after both transfer buffers were
allocated, pipe9x_create does return the failure code with both outputs NULL
(the all-or-nothing part of the claim holds), but the two malloc'd transfer
buffers are never freed — _pipe9x_cleanup (pipe9x.c:259-289) closes the pipe
and event handles and the close functions free the endpoint objects, yet no
code path frees rw_buf — so partially constructed state is leaked. -/
theorem c5_create_error_path_leaks_buffers :
    (pipe9x_create 4 4 eventFailCreateOracle ledger0).ret = 1450 ∧
    (pipe9x_create 4 4 eventFailCreateOracle ledger0).prh_out = none ∧
    (pipe9x_create 4 4 eventFailCreateOracle ledger0).pwh_out = none ∧
    (pipe9x_create 4 4 eventFailCreateOracle ledger0).ledger = Ledger.mk 2 0 0 0 0 := by
  decide

/-- Claim C8: pipe9x_read_close / pipe9x_write_close on a non-NULL endpoint
release the OS pipe handle and the completion event and free the endpoint
object, and close(NULL) is a no-op, but the internal transfer buffer is never
freed: the final ledger still counts the buffer as live and no freeBuffer
step appears in the teardown trace, because _pipe9x_cleanup (pipe9x.c:259)
has no free(pd-rw_buf) and the close functions free only the object. -/
theorem c8_close_releases_handles_but_never_the_buffer :
    pipe9x_read_close (some idleNative) ledger1 =
      (Ledger.mk 1 0 0 0 0,
        [TraceEv.closePipeHandle, TraceEv.closeEventHandle, TraceEv.freeObject]) ∧
    TraceEv.freeBuffer ∉ (pipe9x_read_close (some idleNative) ledger1).2 ∧
    pipe9x_write_close (some idleNative) ledger1 =
      (Ledger.mk 1 0 0 0 0,
        [TraceEv.closePipeHandle, TraceEv.closeEventHandle, TraceEv.freeObject]) ∧
    pipe9x_read_close none ledger1 = (ledger1, []) ∧
    pipe9x_write_close none ledger1 = (ledger1, []) := by decide

/-- Claim C2 is false as stated: closing an endpoint whose operation is still
pending releases the OS pipe handle before waiting for the operation to
finish — in the teardown trace the closePipeHandle step occurs strictly
before the waitForOp step, because _pipe9x_cleanup (pipe9x.c:261-282) calls
CloseHandle on the pipe first and only then waits. -/
theorem c2_pipe_handle_closed_before_wait :
    TraceEv.waitForOp ∈ (pipe9x_read_close (some pendingNative) ledger1).2 ∧
    TraceEv.closePipeHandle ∈
      ((pipe9x_read_close (some pendingNative) ledger1).2.takeWhile
        (fun e => e ≠ TraceEv.waitForOp)) := by decide

/-- Claim C2 (amended): destroying an endpoint while pending is true does
block, unconditionally, until the outstanding operation finishes, and the
wait happens before the completion signal is released and before the endpoint
object is freed (the transfer buffer is never freed at all); the OS pipe
handle, however, is closed before the wait. -/
theorem c2_wait_precedes_signal_and_object_release (pd : PipeData) (L : Ledger)
    (h : pd.pending = true) :
    TraceEv.waitForOp ∈ (pipe9x_read_close (some pd) L).2 ∧
    TraceEv.closeEventHandle ∉
      ((pipe9x_read_close (some pd) L).2.takeWhile
        (fun e => e ≠ TraceEv.waitForOp)) ∧
    TraceEv.freeObject ∉
      ((pipe9x_read_close (some pd) L).2.takeWhile
        (fun e => e ≠ TraceEv.waitForOp)) ∧
    TraceEv.freeBuffer ∉ (pipe9x_read_close (some pd) L).2 := by
  simp only [pipe9x_read_close, _pipe9x_cleanup, h]
  split_ifs <;> simp_all

/-- Claim C2 witness: the amended ordering at a concrete pending endpoint. -/
theorem c2_witness :
    TraceEv.waitForOp ∈ (pipe9x_read_close (some pendingFallback) ledger1).2 ∧
    TraceEv.closeEventHandle ∉
      ((pipe9x_read_close (some pendingFallback) ledger1).2.takeWhile
        (fun e => e ≠ TraceEv.waitForOp)) ∧
    TraceEv.freeObject ∉
      ((pipe9x_read_close (some pendingFallback) ledger1).2.takeWhile
        (fun e => e ≠ TraceEv.waitForOp)) ∧
    TraceEv.freeBuffer ∉ (pipe9x_read_close (some pendingFallback) ledger1).2 :=
  c2_wait_precedes_signal_and_object_release pendingFallback ledger1 (by decide)

set_option maxHeartbeats 1600000 in
/-- Helper: an endpoint returned by pipe9x_create with use_thread_fallback
set can only have come from the ERROR_CALL_NOT_IMPLEMENTED branch, since the
native success path keeps the flag at its initial false. -/
theorem create_fallback_flag_forces_branch (osc : CreateOracle) (L : Ledger)
    (rs ws : Nat) (p : PipeData)
    (hp : (pipe9x_create rs ws osc L).prh_out = some p ∨
      (pipe9x_create rs ws osc L).pwh_out = some p)
    (hf : p.use_thread_fallback = true) :
    osc.namedPipe = PipeLoopOutcome.notImplemented := by
  rcases hp with hp | hp <;>
  · simp only [pipe9x_create] at hp
    repeat' split at hp
    all_goals simp_all
    all_goals subst hp
    all_goals simp_all

/-- Claim C6: when the CreateNamedPipe loop reports
ERROR_CALL_NOT_IMPLEMENTED and the anonymous CreatePipe fallback succeeds,
pipe9x_create returns ERROR_SUCCESS with both endpoints marked
use_thread_fallback and holding the two ends of the anonymous pipe pair; and
an endpoint with use_thread_fallback set is only ever produced when the
CreateNamedPipe loop reported ERROR_CALL_NOT_IMPLEMENTED, so the capability
absence is surfaced as a successful creation, never as an error. -/
theorem c6_capability_absence_takes_fallback (osc : CreateOracle) (L : Ledger)
    (rs ws : Nat)
    (h1 : osc.prhAllocOk = true) (h2 : osc.pwhAllocOk = true)
    (h3 : osc.readBufOk = true) (h4 : osc.writeBufOk = true)
    (h5 : osc.readEventOk = true) (h6 : osc.writeEventOk = true)
    (h7 : osc.namedPipe = PipeLoopOutcome.notImplemented)
    (h8 : osc.createPipeOk = true) :
    (pipe9x_create rs ws osc L).ret = ERROR_SUCCESS ∧
    ((pipe9x_create rs ws osc L).prh_out.map
      (fun p => p.use_thread_fallback)) = some true ∧
    ((pipe9x_create rs ws osc L).pwh_out.map
      (fun p => p.use_thread_fallback)) = some true ∧
    ((pipe9x_create rs ws osc L).prh_out.map
      (fun p => p.pipe)) = some (Handle.valid osc.readPipeId) ∧
    ((pipe9x_create rs ws osc L).pwh_out.map
      (fun p => p.pipe)) = some (Handle.valid osc.writePipeId) ∧
    (∀ osc2 : CreateOracle, ∀ L2 : Ledger, ∀ rs2 ws2 : Nat, ∀ p : PipeData,
      ((pipe9x_create rs2 ws2 osc2 L2).prh_out = some p ∨
        (pipe9x_create rs2 ws2 osc2 L2).pwh_out = some p) →
      p.use_thread_fallback = true →
      osc2.namedPipe = PipeLoopOutcome.notImplemented) := by
  refine ⟨?_, ?_, ?_, ?_, ?_,
    fun osc2 L2 rs2 ws2 p hp hf =>
      create_fallback_flag_forces_branch osc2 L2 rs2 ws2 p hp hf⟩ <;>
  simp [pipe9x_create, h1, h2, h3, h4, h5, h6, h7, h8]

/-- Claim C6 witness: the fallback behaviour at a concrete oracle. -/
theorem c6_witness :
    (pipe9x_create 4 4 fallbackCreateOracle ledger0).ret = ERROR_SUCCESS ∧
    ((pipe9x_create 4 4 fallbackCreateOracle ledger0).prh_out.map
      (fun p => p.use_thread_fallback)) = some true ∧
    ((pipe9x_create 4 4 fallbackCreateOracle ledger0).pwh_out.map
      (fun p => p.use_thread_fallback)) = some true ∧
    ((pipe9x_create 4 4 fallbackCreateOracle ledger0).prh_out.map
      (fun p => p.pipe)) = some (Handle.valid fallbackCreateOracle.readPipeId) ∧
    ((pipe9x_create 4 4 fallbackCreateOracle ledger0).pwh_out.map
      (fun p => p.pipe)) = some (Handle.valid fallbackCreateOracle.writePipeId) := by
  have h := c6_capability_absence_takes_fallback fallbackCreateOracle ledger0 4 4
    (by decide) (by decide) (by decide) (by decide) (by decide) (by decide)
    (by decide) (by decide)
  exact ⟨h.1, h.2.1, h.2.2.1, h.2.2.2.1, h.2.2.2.2.1⟩

/-- Claim C7: pipe9x_read_result with nothing pending fails with
ERROR_INVALID_PARAMETER and changes nothing; from an idle endpoint,
pipe9x_read_initiate reports ERROR_IO_PENDING exactly when it set the
pending flag; and on a pending endpoint a result call returning
ERROR_IO_INCOMPLETE leaves the state (hence the pending flag) untouched
while any other return clears pending, in either backend.  The hypotheses
rule out the impossible OS responses of a worker's blocking ReadFile failing
with ERROR_IO_INCOMPLETE or a failed CreateThread reporting
ERROR_IO_PENDING. -/
theorem c7_pending_flag_lifecycle (pd : PipeData) (wait : Bool)
    (osc : ResultOracle) (oi : InitiateOracle)
    (hw : osc.workerResult ≠ ERROR_IO_INCOMPLETE)
    (he : oi.createThreadErr ≠ ERROR_IO_PENDING) :
    (pd.pending = false →
      pipe9x_read_result pd wait osc =
        (ReadResultOut.mk ERROR_INVALID_PARAMETER none, pd)) ∧
    (pd.pending = false →
      ((pipe9x_read_initiate pd oi).1 = ERROR_IO_PENDING ↔
        (pipe9x_read_initiate pd oi).2.pending = true)) ∧
    (pd.pending = true →
      ((pipe9x_read_result pd wait osc).1.ret = ERROR_IO_INCOMPLETE →
        (pipe9x_read_result pd wait osc).2 = pd) ∧
      ((pipe9x_read_result pd wait osc).1.ret ≠ ERROR_IO_INCOMPLETE →
        (pipe9x_read_result pd wait osc).2.pending = false)) := by
  refine ⟨?_, ?_, ?_⟩
  · intro h
    simp [pipe9x_read_result, h]
  · intro h
    simp only [pipe9x_read_initiate, h]
    cases hf : pd.use_thread_fallback <;>
      rcases hn : oi.native with b | e <;>
      cases hc : oi.createThreadOk <;>
      simp [hf, hn, hc, he] <;>
      split_ifs <;>
      simp_all
  · intro h
    simp only [pipe9x_read_result, h]
    cases hf : pd.use_thread_fallback <;>
      rcases hn : osc.overlapped with b | e <;>
      rcases hv : osc.waitResult <;>
      simp [hf, hn, hv, ERROR_SUCCESS, ERROR_IO_INCOMPLETE] <;>
      (try split_ifs) <;>
      simp_all [ERROR_SUCCESS, ERROR_IO_INCOMPLETE]

/-- Claim C7 witness: the lifecycle facts at concrete endpoints and
oracles. -/
theorem c7_witness :
    (pipe9x_read_result idleNative false incompleteResultOracle =
      (ReadResultOut.mk ERROR_INVALID_PARAMETER none, idleNative)) ∧
    ((pipe9x_read_result pendingNative false incompleteResultOracle).1.ret =
        ERROR_IO_INCOMPLETE →
      (pipe9x_read_result pendingNative false incompleteResultOracle).2 =
        pendingNative) :=
  ⟨(c7_pending_flag_lifecycle idleNative false incompleteResultOracle
      noopInitOracle (by decide) (by decide)).1 rfl,
    ((c7_pending_flag_lifecycle pendingNative false incompleteResultOracle
      noopInitOracle (by decide) (by decide)).2.2 rfl).1⟩

/-- Claim C9: the spec-modelled write direction mirrors the read direction:
pipe9x_write_initiate on an idle endpoint copies the caller's data into the
internal buffer bounded by the buffer capacity — whatever the backend and
whatever the OS then answers, the buffer afterwards has the same capacity and
starts with the copied prefix — and pipe9x_write_result on success reports
the number of bytes actually written in either backend. -/
theorem c9_write_mirrors_read (pwh : PipeData) (data : List Nat)
    (oi : InitiateOracle) (osc : ResultOracle) (wait : Bool) (b : List Nat)
    (h : pwh.pending = false) (hb : pwh.rw_buf = some b)
    (hl : b.length = pwh.rw_buf_size) :
    (∃ b2 : List Nat,
      (pipe9x_write_initiate pwh data oi).2.rw_buf = some b2 ∧
      b2.length = pwh.rw_buf_size ∧
      b2.take (min data.length pwh.rw_buf_size) =
        data.take (min data.length pwh.rw_buf_size)) ∧
    (∀ pwh2 : PipeData, pwh2.pending = true →
      (pwh2.use_thread_fallback = false → ∀ n : Nat,
        osc.overlapped = OvlOutcome.ok n →
        (pipe9x_write_result pwh2 wait osc).1 =
          WriteResultOut.mk ERROR_SUCCESS (some n)) ∧
      (pwh2.use_thread_fallback = true →
        osc.waitResult = WaitOutcome.object0 →
        osc.workerResult = ERROR_SUCCESS →
        (pipe9x_write_result pwh2 wait osc).1 =
          WriteResultOut.mk ERROR_SUCCESS (some osc.workerBytes))) := by
  constructor
  · refine ⟨data.take (min data.length pwh.rw_buf_size) ++
      b.drop (min data.length pwh.rw_buf_size), ?_, ?_, ?_⟩
    · simp only [pipe9x_write_initiate, h, hb]
      cases hf : pwh.use_thread_fallback <;>
        rcases hn : oi.native with n | e <;>
        cases hc : oi.createThreadOk <;>
        simp [hf, hn, hc] <;>
        split_ifs <;>
        simp_all
    · simp [List.length_take, List.length_drop, hl]
    · have hm : min data.length pwh.rw_buf_size ≤ data.length :=
        Nat.min_le_left _ _
      have hlen : (data.take (min data.length pwh.rw_buf_size)).length =
          min data.length pwh.rw_buf_size := by
        rw [List.length_take]
        omega
      rw [List.take_append_eq_append_take, hlen, Nat.sub_self, List.take_zero,
        List.append_nil, List.take_take, Nat.min_self]
  · intro pwh2 hp
    constructor
    · intro hf n hn
      simp [pipe9x_write_result, hp, hf, hn]
    · intro hf hv hw
      simp [pipe9x_write_result, hp, hf, hv, hw]

/-- Claim C9 witness: the mirrored behaviour at a concrete endpoint, with six
bytes offered to a four-byte buffer. -/
theorem c9_witness :
    (∃ b2 : List Nat,
      (pipe9x_write_initiate idleNative [1, 2, 3, 4, 5, 6] noopInitOracle).2.rw_buf =
        some b2 ∧
      b2.length = idleNative.rw_buf_size ∧
      b2.take (min (List.length [1, 2, 3, 4, 5, 6]) idleNative.rw_buf_size) =
        List.take (min (List.length [1, 2, 3, 4, 5, 6]) idleNative.rw_buf_size)
          [1, 2, 3, 4, 5, 6]) ∧
    (∀ pwh2 : PipeData, pwh2.pending = true →
      (pwh2.use_thread_fallback = false → ∀ n : Nat,
        successResultOracle.overlapped = OvlOutcome.ok n →
        (pipe9x_write_result pwh2 false successResultOracle).1 =
          WriteResultOut.mk ERROR_SUCCESS (some n)) ∧
      (pwh2.use_thread_fallback = true →
        successResultOracle.waitResult = WaitOutcome.object0 →
        successResultOracle.workerResult = ERROR_SUCCESS →
        (pipe9x_write_result pwh2 false successResultOracle).1 =
          WriteResultOut.mk ERROR_SUCCESS (some successResultOracle.workerBytes))) :=
  c9_write_mirrors_read idleNative [1, 2, 3, 4, 5, 6] noopInitOracle
    successResultOracle false (List.replicate 4 0) rfl rfl (by decide)

/-- Claim C10 (amended): for an endpoint with no operation pending and no
worker thread, a failing pipe9x_read_initiate (any return other than
ERROR_IO_PENDING) leaves pending false and io_thread NULL and every other
field unchanged, so a subsequent initiate may be attempted — except that in
the thread-fallback backend the completion event may already have been reset
to unsignalled (pipe9x.c:337). -/
theorem c10_failed_initiate_leaves_fields (pd : PipeData) (oi : InitiateOracle)
    (h : pd.pending = false) (ht : pd.io_thread = none)
    (hf : (pipe9x_read_initiate pd oi).1 ≠ ERROR_IO_PENDING) :
    (pipe9x_read_initiate pd oi).2.pending = false ∧
    (pipe9x_read_initiate pd oi).2.io_thread = none ∧
    (pipe9x_read_initiate pd oi).2.pipe = pd.pipe ∧
    (pipe9x_read_initiate pd oi).2.rw_buf = pd.rw_buf ∧
    (pipe9x_read_initiate pd oi).2.rw_buf_size = pd.rw_buf_size ∧
    (pipe9x_read_initiate pd oi).2.use_thread_fallback = pd.use_thread_fallback ∧
    (pipe9x_read_initiate pd oi).2.bytes_transferred = pd.bytes_transferred ∧
    (pipe9x_read_initiate pd oi).2.io_result = pd.io_result ∧
    ((pipe9x_read_initiate pd oi).2.hEvent = pd.hEvent ∨
      (pipe9x_read_initiate pd oi).2.hEvent = pd.hEvent.map (fun _ => Event.mk false)) := by
  simp only [pipe9x_read_initiate, h] at hf ⊢
  rcases hn : oi.native with b | e <;>
    simp only [hn] at hf ⊢ <;>
    split_ifs at hf ⊢ <;>
    simp_all

/-- Claim C10 witness: the amended statement at a concrete fallback endpoint
whose CreateThread call fails. -/
theorem c10_witness :
    (pipe9x_read_initiate idleFallback threadFailInitOracle).2.pending = false ∧
    (pipe9x_read_initiate idleFallback threadFailInitOracle).2.io_thread = none ∧
    (pipe9x_read_initiate idleFallback threadFailInitOracle).2.pipe = idleFallback.pipe ∧
    (pipe9x_read_initiate idleFallback threadFailInitOracle).2.rw_buf = idleFallback.rw_buf ∧
    (pipe9x_read_initiate idleFallback threadFailInitOracle).2.rw_buf_size = idleFallback.rw_buf_size ∧
    (pipe9x_read_initiate idleFallback threadFailInitOracle).2.use_thread_fallback = idleFallback.use_thread_fallback ∧
    (pipe9x_read_initiate idleFallback threadFailInitOracle).2.bytes_transferred = idleFallback.bytes_transferred ∧
    (pipe9x_read_initiate idleFallback threadFailInitOracle).2.io_result = idleFallback.io_result ∧
    ((pipe9x_read_initiate idleFallback threadFailInitOracle).2.hEvent = idleFallback.hEvent ∨
      (pipe9x_read_initiate idleFallback threadFailInitOracle).2.hEvent =
        idleFallback.hEvent.map (fun _ => Event.mk false)) :=
  c10_failed_initiate_leaves_fields idleFallback threadFailInitOracle (by decide) (by decide)
    (by decide)

/-- Claim C10 is false as stated: when CreateThread fails in the
thread-fallback backend, pipe9x_read_initiate returns the failure code with
pending still false and io_thread still NULL, but the endpoint state is not
unchanged — ResetEvent has already run (pipe9x.c:337), so the completion
event that was signalled before the call is unsignalled after it. -/
theorem c10_failed_initiate_resets_event :
    (pipe9x_read_initiate idleFallback threadFailInitOracle).1 = 8 ∧
    (8 : Nat) ≠ ERROR_IO_PENDING ∧
    (pipe9x_read_initiate idleFallback threadFailInitOracle).2.pending = false ∧
    (pipe9x_read_initiate idleFallback threadFailInitOracle).2.io_thread = none ∧
    (pipe9x_read_initiate idleFallback threadFailInitOracle).2.hEvent = some (Event.mk false) ∧
    (pipe9x_read_initiate idleFallback threadFailInitOracle).2 ≠ idleFallback := by decide

end Pipe9x
